import Mathlib

/-!
Shallow embedding of the homework-status bot (`homework.py`, `exceptions.py`).

Python dictionaries and JSON payloads are modelled by the inductive `Value`
type; Python exceptions by the `PyError` type (one constructor per exception
class raised by the program, carrying the message string the code builds).
Network effects are modelled by passing the transport outcome of each
`requests.get` call as an explicit argument, and delivery outcomes of
`bot.send_message` as explicit booleans; everything else is translated
function by function from the source.
-/

set_option autoImplicit false

namespace HomeworkBot

/-- A Python/JSON value as it appears in the program: `None`, booleans,
integers, strings, lists and dicts (a dict is a list of key/value pairs with
string keys, looked up at the first matching key). -/
inductive Value where
  | null
  | bool (b : Bool)
  | int (n : Int)
  | str (s : String)
  | list (xs : List Value)
  | obj (kvs : List (String × Value))

mutual

/-- Python `repr` of a value (used by `str` on containers and in f-strings
that format dicts). -/
def pyRepr : Value → String
  | .null => "None"
  | .bool b => if b then "True" else "False"
  | .int n => toString n
  | .str s => "\x27" ++ s ++ "\x27"
  | .list xs => "[" ++ pyReprList xs ++ "]"
  | .obj kvs => "\x7b" ++ pyReprObj kvs ++ "\x7d"

/-- `repr` of the comma-separated elements of a list. -/
def pyReprList : List Value → String
  | [] => ""
  | [x] => pyRepr x
  | x :: y :: xs => pyRepr x ++ ", " ++ pyReprList (y :: xs)

/-- `repr` of the comma-separated entries of a dict. -/
def pyReprObj : List (String × Value) → String
  | [] => ""
  | [(k, v)] => "\x27" ++ k ++ "\x27: " ++ pyRepr v
  | (k, v) :: y :: xs => "\x27" ++ k ++ "\x27: " ++ pyRepr v ++ ", " ++ pyReprObj (y :: xs)

end

/-- Python `str` of a value, as used when a value is interpolated into an
f-string: identical to `repr` except on strings themselves. -/
def pyStr : Value → String
  | .str s => s
  | v => pyRepr v

/-- The exceptions the program raises, with the message text the code puts in
them.  `typeError` is Python's builtin `TypeError`; the others are the classes
of `exceptions.py`. -/
inductive PyError where
  | missingTokensError (msg : String)
  | apiRequestError (msg : String)
  | invalidAPIResponseError (msg : String)
  | unknownHomeworkStatusError (msg : String)
  | typeError (msg : String)
  | keyError (key : String)
deriving DecidableEq, Repr

/-- `str(error)`: the message of the exception (for `KeyError` Python shows
the `repr` of the missing key). -/
def errorText : PyError → String
  | .missingTokensError m => m
  | .apiRequestError m => m
  | .invalidAPIResponseError m => m
  | .unknownHomeworkStatusError m => m
  | .typeError m => m
  | .keyError k => "\x27" ++ k ++ "\x27"

/-- `ENDPOINT` from `homework.py`. -/
def ENDPOINT : String := "https://practicum.yandex.ru/api/user_api/homework_statuses/"

/-- `TEXT` from `homework.py` (the startup greeting). -/
def TEXT : String := "Hi, practicum"

/-- `RETRY_PERIOD` from `homework.py`. -/
def RETRY_PERIOD : Nat := 600

/-- `HOMEWORK_VERDICTS` from `homework.py`. -/
def HOMEWORK_VERDICTS : List (String × String) :=
  [("approved", "Работа проверена: ревьюеру всё понравилось. Ура!"),
   ("reviewing", "Работа взята на проверку ревьюером."),
   ("rejected", "Работа проверена: у ревьюера есть замечания.")]

/-- Python `key in dict` / `dict.__contains__` over our dict representation. -/
def hasKey (kvs : List (String × Value)) (k : String) : Bool :=
  kvs.any (fun p => p.1 == k)

/-- Python `dict[key]` lookup: the first binding of the key. -/
def dictGet? (kvs : List (String × Value)) (k : String) : Option Value :=
  kvs.lookup k

/-- Python `x in v` for the containers the program can meet: key membership
for dicts, element membership for lists, substring test for strings, and a
`TypeError` for non-iterable values. -/
def pyContains (v : Value) (k : String) : Except PyError Bool :=
  match v with
  | .obj kvs => .ok (hasKey kvs k)
  | .list xs => .ok (xs.any (fun x => match x with | .str s => s == k | _ => false))
  | .str s => .ok (decide ((s.splitOn k).length ≠ 1))
  | _ => .error (.typeError "argument is not iterable")

/-- Python `v[k]` for a string subscript: dict lookup (`KeyError` when the key
is absent), `TypeError` on anything else. -/
def pyGetItem (v : Value) (k : String) : Except PyError Value :=
  match v with
  | .obj kvs =>
    match dictGet? kvs k with
    | some x => .ok x
    | none => .error (.keyError k)
  | .list _ => .error (.typeError "list indices must be integers or slices, not str")
  | _ => .error (.typeError "object is not subscriptable")

/-- The configuration read from the environment at module load:
`os.getenv` yields `none` for an absent variable. -/
structure Config where
  PRACTICUM_TOKEN : Option String
  TELEGRAM_TOKEN : Option String
  TELEGRAM_CHAT_ID : Option String

/-- Python falsiness of an `os.getenv` result: `None` or the empty string. -/
def tokenMissing : Option String → Bool
  | none => true
  | some s => s == ""

/-- The token list of `check_tokens`, paired with the configured values. -/
def tokenTable (cfg : Config) : List (String × Option String) :=
  [("PRACTICUM_TOKEN", cfg.PRACTICUM_TOKEN),
   ("TELEGRAM_TOKEN", cfg.TELEGRAM_TOKEN),
   ("TELEGRAM_CHAT_ID", cfg.TELEGRAM_CHAT_ID)]

/-- `check_tokens` from `homework.py`: collects every missing variable name
and raises `MissingTokensError` naming all of them, or returns unit. -/
def check_tokens (cfg : Config) : Except PyError Unit :=
  let missing_tokens := ((tokenTable cfg).filter (fun p => tokenMissing p.2)).map (·.1)
  if missing_tokens.isEmpty then .ok ()
  else
    .error (.missingTokensError
      ("Отсутствует обязательная переменная окружения: "
        ++ ", ".intercalate missing_tokens ++ "."))

/-- The outcome of one `requests.get` call: either a raised
`requests.RequestException`, or an HTTP response with a status code and a
body that either parses as JSON (`json = some v`) or does not
(`json = none`). -/
structure HttpResponse where
  status_code : Nat
  json : Option Value

/-- What `get_api_answer` hands back to its caller: the decoded JSON value on
the normal path, or — when `response.json()` raised `JSONDecodeError` — the
raw, undecoded `requests.Response` object itself. -/
inductive FetchResult where
  | decoded (v : Value)
  | raw (resp : HttpResponse)

/-- The message of the `APIRequestError` raised on a transport failure:
`f"Ошибка запроса к {ENDPOINT} c params={params}."` with
`params = {"from_date": timestamp}`. -/
def transportErrorMsg (timestamp : Value) : String :=
  "Ошибка запроса к " ++ ENDPOINT ++ " c params=\x7b\x27from_date\x27: "
    ++ pyRepr timestamp ++ "\x7d."

/-- The message of the `APIRequestError` raised on a non-OK status code. -/
def unavailableMsg : String := "Эндпоинт - " ++ ENDPOINT ++ " недоступен."

/-- `get_api_answer` from `homework.py`.  The transport outcome of the single
`requests.get` call is passed in explicitly (`.error ()` models a raised
`requests.RequestException`).  A `JSONDecodeError` from `response.json()` is
caught and only logged: the function then returns the raw response object. -/
def get_api_answer (timestamp : Value) (transport : Except Unit HttpResponse) :
    Except PyError FetchResult :=
  match transport with
  | .error _ => .error (.apiRequestError (transportErrorMsg timestamp))
  | .ok resp =>
    if resp.status_code ≠ 200 then
      .error (.apiRequestError unavailableMsg)
    else
      match resp.json with
      | some v => .ok (.decoded v)
      | none => .ok (.raw resp)

/-- `check_response` from `homework.py`: the payload must be a dict holding
the keys `homeworks` and `current_date`, and the `homeworks` value must be a
list, which is returned (possibly empty). -/
def check_response (response : Value) : Except PyError (List Value) :=
  match response with
  | .obj kvs =>
    if ¬ hasKey kvs "homeworks" then
      .error (.invalidAPIResponseError
        "Отсутствует ожидаемый ключ \"homeworks\" в ответе API.")
    else if ¬ hasKey kvs "current_date" then
      .error (.invalidAPIResponseError
        "Отсутствует ожидаемый ключ \"current_date\" в ответе API.")
    else
      match dictGet? kvs "homeworks" with
      | some (.list homeworks) => .ok homeworks
      | _ => .error (.typeError "Значение ключа homeworks не является списком.")
  | _ => .error (.typeError "Ответ не является словарем.")

/-- `parse_status` from `homework.py`: both keys must be present (checked with
Python `in`, short-circuit), the status must be a key of `HOMEWORK_VERDICTS`,
and the message interpolates the homework name and the verdict. -/
def parse_status (homework : Value) : Except PyError String := do
  let has_name ← pyContains homework "homework_name"
  let missing ←
    if has_name then do
      let has_status ← pyContains homework "status"
      pure (!has_status)
    else
      pure true
  if missing then
    throw (.invalidAPIResponseError
      "Отсутствуют ключи homework_name или status в ответе API")
  let homework_name ← pyGetItem homework "homework_name"
  let homework_status ← pyGetItem homework "status"
  let verdict? :=
    match homework_status with
    | .str s => HOMEWORK_VERDICTS.lookup s
    | _ => none
  match verdict? with
  | none =>
    throw (.unknownHomeworkStatusError
      ("Неизвестный статус домашней работы: " ++ pyStr homework_status))
  | some verdict =>
    return "Изменился статус проверки работы \"" ++ pyStr homework_name ++ "\". "
      ++ verdict

/-! ## The poll loop of `main` -/

/-- The two process-local scalars mutated by the loop body of `main`:
the poll cursor `timestamp` (a Python value: the code assigns it whatever
`response.get("current_date", timestamp)` yields) and `last_error_message`
(initially `None`). -/
structure LoopState where
  timestamp : Value
  last_error_message : Option String

/-- `check_response` as invoked by `main` on what `get_api_answer` returned:
a raw (undecoded) `requests.Response` object is not a dict, so it fails the
first `isinstance` check. -/
def check_response_of : FetchResult → Except PyError (List Value)
  | .decoded v => check_response v
  | .raw _ => .error (.typeError "Ответ не является словарем.")

/-- `response.get("current_date", timestamp)` on the success path (where the
response is known to be a dict). -/
def new_timestamp : FetchResult → Value → Value
  | .decoded (.obj kvs), ts => (dictGet? kvs "current_date").getD ts
  | _, ts => ts

/-- The `try` block of one loop iteration of `main`: fetch, validate,
translate the first homework if any.  Returns the value the cursor is
assigned and the success message to send (if any), or the first exception
raised. -/
def try_block (transport : Except Unit HttpResponse) (st : LoopState) :
    Except PyError (Value × Option String) :=
  match get_api_answer st.timestamp transport with
  | .error e => .error e
  | .ok fetched =>
    match check_response_of fetched with
    | .error e => .error e
    | .ok homeworks =>
      match homeworks with
      | [] => .ok (new_timestamp fetched st.timestamp, none)
      | hw :: _ =>
        match parse_status hw with
        | .error e => .error e
        | .ok message => .ok (new_timestamp fetched st.timestamp, some message)

/-- The diagnostic text composed by the `except` handler:
`f"Сбой в работе программы: {error}."`. -/
def diag (e : PyError) : String :=
  "Сбой в работе программы: " ++ errorText e ++ "."

/-- What one iteration does with its messages: the texts passed to
`send_message` (attempted) and those actually delivered.  `send_message`
swallows every delivery failure, so delivery affects neither the state nor
control flow. -/
structure IterOutput where
  state : LoopState
  attempted : List String
  delivered : List String

/-- One iteration of the `while True` loop of `main`: run the `try` block;
on success send the message (if any) and assign the cursor; on an exception
compose the diagnostic text and, only when it differs from
`last_error_message`, send it and remember it. -/
def iterate_once (transport : Except Unit HttpResponse) (delivery_ok : Bool)
    (st : LoopState) : IterOutput :=
  match try_block transport st with
  | .ok (ts, message?) =>
    let attempted := match message? with | some m => [m] | none => []
    ⟨⟨ts, st.last_error_message⟩, attempted, if delivery_ok then attempted else []⟩
  | .error e =>
    let message := diag e
    if st.last_error_message == some message then
      ⟨st, [], []⟩
    else
      ⟨⟨st.timestamp, some message⟩, [message],
        if delivery_ok then [message] else []⟩

/-- A finite prefix of the loop: one (transport outcome, delivery outcome)
pair per iteration.  Returns the final state and all attempted sends. -/
def run_loop (events : List (Except Unit HttpResponse × Bool)) (st : LoopState) :
    LoopState × List String :=
  match events with
  | [] => (st, [])
  | (t, d) :: rest =>
    let out := iterate_once t d st
    let (final, msgs) := run_loop rest out.state
    (final, out.attempted ++ msgs)

/-- `main` up to a finite prefix of the loop: `check_tokens` runs first and
its exception propagates (the loop is never entered); otherwise the greeting
`TEXT` is sent and the loop runs from cursor `now` with no remembered error. -/
def main_model (cfg : Config) (now : Int)
    (events : List (Except Unit HttpResponse × Bool)) :
    Except PyError (List String × LoopState) :=
  match check_tokens cfg with
  | .error e => .error e
  | .ok () =>
    let st0 : LoopState := ⟨.int now, none⟩
    let (final, msgs) := run_loop events st0
    .ok (TEXT :: msgs, final)

/-! ## Helper lemmas -/

theorem intercalate_go_suffix (s : String) (as : List String) (acc : String) :
    ∃ suffix, String.intercalate.go acc s as = acc ++ suffix := by
  induction as generalizing acc with
  | nil => exact ⟨"", by simp [String.intercalate.go]⟩
  | cons a as ih =>
    obtain ⟨suf, hsuf⟩ := ih (acc ++ s ++ a)
    refine ⟨s ++ a ++ suf, ?_⟩
    rw [show String.intercalate.go acc s (a :: as)
          = String.intercalate.go (acc ++ s ++ a) s as from rfl, hsuf]
    simp [String.append_assoc]

theorem intercalate_go_mem_split (s a : String) (l : List String) (acc : String)
    (h : a ∈ l) :
    ∃ pre post, String.intercalate.go acc s l = pre ++ a ++ post := by
  induction l generalizing acc with
  | nil => cases h
  | cons b bs ih =>
    rcases List.mem_cons.mp h with heq | hmem
    · subst heq
      obtain ⟨suf, hsuf⟩ := intercalate_go_suffix s bs (acc ++ s ++ a)
      exact ⟨acc ++ s, suf, by
        rw [show String.intercalate.go acc s (a :: bs)
              = String.intercalate.go (acc ++ s ++ a) s bs from rfl, hsuf]⟩
    · obtain ⟨pre, post, hp⟩ := ih (acc ++ s ++ b) hmem
      exact ⟨pre, post, by
        rw [show String.intercalate.go acc s (b :: bs)
              = String.intercalate.go (acc ++ s ++ b) s bs from rfl, hp]⟩

theorem intercalate_mem_split (s a : String) (l : List String) (h : a ∈ l) :
    ∃ pre post, String.intercalate s l = pre ++ a ++ post := by
  cases l with
  | nil => cases h
  | cons b bs =>
    rcases List.mem_cons.mp h with heq | hmem
    · subst heq
      obtain ⟨suf, hsuf⟩ := intercalate_go_suffix s bs a
      exact ⟨"", suf, by
        rw [show String.intercalate s (a :: bs)
              = String.intercalate.go a s bs from rfl, hsuf]
        simp⟩
    · obtain ⟨pre, post, hp⟩ := intercalate_go_mem_split s a bs b hmem
      exact ⟨pre, post, by
        rw [show String.intercalate s (b :: bs)
              = String.intercalate.go b s bs from rfl, hp]⟩

theorem dictGet?_isSome_iff (kvs : List (String × Value)) (k : String) :
    (dictGet? kvs k).isSome = hasKey kvs k := by
  induction kvs with
  | nil => rfl
  | cons p rest ih =>
    obtain ⟨a, v⟩ := p
    by_cases h : k = a
    · subst h; simp [dictGet?, hasKey, List.lookup]
    · have h1 : (k == a) = false := beq_eq_false_iff_ne.mpr h
      have h2 : (a == k) = false := beq_eq_false_iff_ne.mpr (Ne.symm h)
      simp only [dictGet?, hasKey, List.lookup, List.any_cons, h1, h2,
        Bool.false_or] at *
      exact ih

theorem hasKey_of_lookup (kvs : List (String × Value)) (k : String) (v : Value)
    (h : dictGet? kvs k = some v) : hasKey kvs k = true := by
  rw [← dictGet?_isSome_iff, h]; rfl

theorem lookup_exists_of_hasKey (kvs : List (String × Value)) (k : String)
    (h : hasKey kvs k = true) : ∃ v, dictGet? kvs k = some v := by
  rw [← dictGet?_isSome_iff] at h
  exact Option.isSome_iff_exists.mp h

theorem check_response_ok_iff (kvs : List (String × Value)) (hs : List Value) :
    check_response (.obj kvs) = .ok hs ↔
      hasKey kvs "homeworks" = true ∧ hasKey kvs "current_date" = true ∧
        dictGet? kvs "homeworks" = some (.list hs) := by
  by_cases h1 : hasKey kvs "homeworks"
  · by_cases h2 : hasKey kvs "current_date"
    · cases hdg : dictGet? kvs "homeworks" with
      | none => simp [check_response, h1, h2, hdg]
      | some v => cases v <;> simp [check_response, h1, h2, hdg]
    · simp [check_response, h1, h2]
  · simp [check_response, h1]

theorem parse_status_ok (kvs : List (String × Value)) (nv : Value)
    (c verdict : String)
    (hname : dictGet? kvs "homework_name" = some nv)
    (hstatus : dictGet? kvs "status" = some (.str c))
    (hv : HOMEWORK_VERDICTS.lookup c = some verdict) :
    parse_status (.obj kvs) = .ok
      ("Изменился статус проверки работы \"" ++ pyStr nv ++ "\". " ++ verdict) := by
  have h1 := hasKey_of_lookup kvs "homework_name" nv hname
  have h2 := hasKey_of_lookup kvs "status" _ hstatus
  simp [parse_status, pyContains, pyGetItem, h1, h2, hname, hstatus, hv,
    bind, Except.bind, pure, Except.pure, throw, throwThe, MonadExceptOf.throw]

theorem parse_status_missing_key (kvs : List (String × Value))
    (h : hasKey kvs "homework_name" = false ∨ hasKey kvs "status" = false) :
    parse_status (.obj kvs) = .error (.invalidAPIResponseError
      "Отсутствуют ключи homework_name или status в ответе API") := by
  by_cases h1 : hasKey kvs "homework_name"
  · rcases h with h0 | h0
    · rw [h1] at h0; cases h0
    · simp [parse_status, pyContains, h1, h0,
        bind, Except.bind, pure, Except.pure, throw, throwThe, MonadExceptOf.throw]
  · simp only [Bool.not_eq_true] at h1
    simp [parse_status, pyContains, h1,
      bind, Except.bind, pure, Except.pure, throw, throwThe, MonadExceptOf.throw]

theorem parse_status_unknown_status (kvs : List (String × Value)) (nv : Value)
    (c : String)
    (hname : dictGet? kvs "homework_name" = some nv)
    (hstatus : dictGet? kvs "status" = some (.str c))
    (hv : HOMEWORK_VERDICTS.lookup c = none) :
    parse_status (.obj kvs) = .error (.unknownHomeworkStatusError
      ("Неизвестный статус домашней работы: " ++ c)) := by
  have h1 := hasKey_of_lookup kvs "homework_name" nv hname
  have h2 := hasKey_of_lookup kvs "status" _ hstatus
  simp [parse_status, pyContains, pyGetItem, h1, h2, hname, hstatus, hv, pyStr,
    bind, Except.bind, pure, Except.pure, throw, throwThe, MonadExceptOf.throw]

theorem iterate_once_error (t : Except Unit HttpResponse) (d : Bool)
    (st : LoopState) (e : PyError) (h : try_block t st = .error e) :
    iterate_once t d st =
      if st.last_error_message == some (diag e) then ⟨st, [], []⟩
      else ⟨⟨st.timestamp, some (diag e)⟩, [diag e], if d then [diag e] else []⟩ := by
  simp [iterate_once, h]

theorem iterate_once_ok (t : Except Unit HttpResponse) (d : Bool)
    (st : LoopState) (ts : Value) (m? : Option String)
    (h : try_block t st = .ok (ts, m?)) :
    iterate_once t d st =
      ⟨⟨ts, st.last_error_message⟩, m?.toList, if d then m?.toList else []⟩ := by
  cases m? <;> simp [iterate_once, h, Option.toList]

theorem try_block_ok_inv (st : LoopState) (p : Value × Option String)
    (resp : HttpResponse) (kvs : List (String × Value))
    (hj : resp.json = some (.obj kvs))
    (h : try_block (.ok resp) st = .ok p) :
    resp.status_code = 200 ∧
      ∃ hs, check_response (.obj kvs) = .ok hs ∧
        p.1 = (dictGet? kvs "current_date").getD st.timestamp := by
  by_cases hsc : resp.status_code = 200
  · refine ⟨hsc, ?_⟩
    have hga : get_api_answer st.timestamp (Except.ok resp)
        = .ok (.decoded (.obj kvs)) := by
      simp [get_api_answer, hsc, hj]
    cases hcr : check_response (.obj kvs) with
    | error e =>
      simp only [try_block, hga, check_response_of, hcr] at h
      simp at h
    | ok hs =>
      simp only [try_block, hga, check_response_of, hcr] at h
      refine ⟨hs, rfl, ?_⟩
      cases hs with
      | nil =>
        injection h with h
        subst h; simp [new_timestamp]
      | cons hw rest =>
        cases hps : parse_status hw with
        | error e => simp only [hps] at h; simp at h
        | ok m =>
          simp only [hps] at h
          injection h with h
          subst h; simp [new_timestamp]
  · simp [try_block, get_api_answer, hsc] at h

/-! ## Claims -/

/-- C1 (code bug): the spec requires a syntactically invalid body to raise a
decode error that propagates; `get_api_answer` instead catches
`JSONDecodeError`, logs it, and returns the raw, undecoded response object to
the caller.  At the failing input (HTTP 200, unparseable body) the embedded
code returns `.ok` with the raw response rather than any error. -/
theorem get_api_answer_swallows_decode_failure :
    get_api_answer (.int 0) (.ok ⟨200, none⟩) = .ok (.raw ⟨200, none⟩) := rfl

/-- C2 (counterexample): for the record `{"homework_name": "hw1", "status":
"approved"}` the translator does not return the spec's English text
`Status changed for submission "hw1": …`; it returns the Russian template
`Изменился статус проверки работы "hw1". …`. -/
theorem parse_status_text_counterexample :
    parse_status (.obj [("homework_name", .str "hw1"), ("status", .str "approved")])
      = .ok "Изменился статус проверки работы \"hw1\". Работа проверена: ревьюеру всё понравилось. Ура!" ∧
    parse_status (.obj [("homework_name", .str "hw1"), ("status", .str "approved")])
      ≠ .ok "Status changed for submission \"hw1\": Работа проверена: ревьюеру всё понравилось. Ура!" := by
  refine ⟨rfl, ?_⟩
  intro h
  rw [show parse_status
        (.obj [("homework_name", .str "hw1"), ("status", .str "approved")])
      = .ok "Изменился статус проверки работы \"hw1\". Работа проверена: ревьюеру всё понравилось. Ура!"
      from rfl] at h
  injection h with h
  exact absurd h (by decide)

/-- C2 (amended): on success the translator composes
`Изменился статус проверки работы "<homework_name>". <verdict sentence>`
(for the record `{"homework_name": "hw1", "status": "approved"}` this is
`Изменился статус проверки работы "hw1". Работа проверена: ревьюеру всё
понравилось. Ура!`). -/
theorem parse_status_composes_template (kvs : List (String × Value))
    (n c verdict : String)
    (hname : dictGet? kvs "homework_name" = some (.str n))
    (hstatus : dictGet? kvs "status" = some (.str c))
    (hv : HOMEWORK_VERDICTS.lookup c = some verdict) :
    parse_status (.obj kvs) = .ok
      ("Изменился статус проверки работы \"" ++ n ++ "\". " ++ verdict) :=
  parse_status_ok kvs (.str n) c verdict hname hstatus hv

/-- C2 (witness): the amended template at the Scenario C record. -/
theorem parse_status_composes_template_witness :
    parse_status (.obj [("homework_name", .str "hw1"), ("status", .str "approved")])
      = .ok ("Изменился статус проверки работы \"" ++ "hw1" ++ "\". "
          ++ "Работа проверена: ревьюеру всё понравилось. Ура!") :=
  parse_status_composes_template
    [("homework_name", .str "hw1"), ("status", .str "approved")]
    "hw1" "approved" "Работа проверена: ревьюеру всё понравилось. Ура!"
    rfl rfl rfl

/-- C3: `check_response` checks in order, short-circuiting: a non-mapping
payload fails with `TypeError` (the spec's WrongFieldType); a mapping without
`homeworks` fails with `InvalidAPIResponseError` naming `homeworks`; one with
`homeworks` but without `current_date` fails naming `current_date`; one whose
`homeworks` value is not a list fails with `TypeError`; otherwise the
(possibly empty) `homeworks` list is returned. -/
theorem check_response_ordered_checks (response : Value) :
    ((∀ kvs, response ≠ .obj kvs) →
      check_response response = .error (.typeError "Ответ не является словарем.")) ∧
    (∀ kvs, response = .obj kvs →
      (hasKey kvs "homeworks" = false →
        check_response response = .error (.invalidAPIResponseError
          "Отсутствует ожидаемый ключ \"homeworks\" в ответе API.")) ∧
      (hasKey kvs "homeworks" = true → hasKey kvs "current_date" = false →
        check_response response = .error (.invalidAPIResponseError
          "Отсутствует ожидаемый ключ \"current_date\" в ответе API.")) ∧
      (hasKey kvs "homeworks" = true → hasKey kvs "current_date" = true →
        (∀ hs, dictGet? kvs "homeworks" ≠ some (.list hs)) →
        check_response response = .error (.typeError
          "Значение ключа homeworks не является списком.")) ∧
      (∀ hs, hasKey kvs "current_date" = true →
        dictGet? kvs "homeworks" = some (.list hs) →
        check_response response = .ok hs)) := by
  constructor
  · intro hno
    cases response <;> first
      | rfl
      | exact absurd rfl (hno _)
  · rintro kvs rfl
    refine ⟨?_, ?_, ?_, ?_⟩
    · intro h1; simp [check_response, h1]
    · intro h1 h2; simp [check_response, h1, h2]
    · intro h1 h2 hno
      cases hdg : dictGet? kvs "homeworks" with
      | none => simp [check_response, h1, h2, hdg]
      | some v =>
        cases v with
        | list hs => exact absurd hdg (hno hs)
        | _ => simp [check_response, h1, h2, hdg]
    · intro hs h2 hdg
      have h1 := hasKey_of_lookup kvs "homeworks" _ hdg
      simp [check_response, h1, h2, hdg]

/-- C3 (witness): each branch of the validator at a concrete payload. -/
theorem check_response_ordered_checks_witness :
    check_response (.int 5) = .error (.typeError "Ответ не является словарем.") ∧
    check_response (.obj []) = .error (.invalidAPIResponseError
      "Отсутствует ожидаемый ключ \"homeworks\" в ответе API.") ∧
    check_response (.obj [("homeworks", .list [])])
      = .error (.invalidAPIResponseError
        "Отсутствует ожидаемый ключ \"current_date\" в ответе API.") ∧
    check_response (.obj [("homeworks", .int 1), ("current_date", .int 2)])
      = .error (.typeError "Значение ключа homeworks не является списком.") ∧
    check_response (.obj [("homeworks", .list []), ("current_date", .int 5)])
      = .ok [] := by
  refine ⟨(check_response_ordered_checks (.int 5)).1
      (fun kvs h => Value.noConfusion h), ?_, ?_, ?_, ?_⟩
  · exact ((check_response_ordered_checks (.obj [])).2 [] rfl).1 rfl
  · exact ((check_response_ordered_checks
      (.obj [("homeworks", .list [])])).2 _ rfl).2.1 rfl rfl
  · refine ((check_response_ordered_checks
      (.obj [("homeworks", .int 1), ("current_date", .int 2)])).2 _ rfl).2.2.1
      rfl rfl ?_
    intro hs h
    rw [show dictGet? [("homeworks", Value.int 1), ("current_date", Value.int 2)]
          "homeworks" = some (.int 1) from rfl] at h
    injection h with h
    exact Value.noConfusion h
  · exact ((check_response_ordered_checks
      (.obj [("homeworks", .list []), ("current_date", .int 5)])).2 _ rfl).2.2.2
      [] rfl rfl

/-- C4: the translator fails with `InvalidAPIResponseError` when
`homework_name` or `status` is absent, and with `UnknownHomeworkStatusError`
carrying the offending code when the status is outside
{approved, reviewing, rejected}; no default message is produced. -/
theorem parse_status_rejections (kvs : List (String × Value)) (nv : Value)
    (c : String) :
    ((hasKey kvs "homework_name" = false ∨ hasKey kvs "status" = false) →
      parse_status (.obj kvs) = .error (.invalidAPIResponseError
        "Отсутствуют ключи homework_name или status в ответе API")) ∧
    (dictGet? kvs "homework_name" = some nv →
      dictGet? kvs "status" = some (.str c) →
      c ≠ "approved" → c ≠ "reviewing" → c ≠ "rejected" →
      parse_status (.obj kvs) = .error (.unknownHomeworkStatusError
        ("Неизвестный статус домашней работы: " ++ c))) := by
  refine ⟨parse_status_missing_key kvs, ?_⟩
  intro hname hstatus hc1 hc2 hc3
  have e1 : (c == "approved") = false := beq_eq_false_iff_ne.mpr hc1
  have e2 : (c == "reviewing") = false := beq_eq_false_iff_ne.mpr hc2
  have e3 : (c == "rejected") = false := beq_eq_false_iff_ne.mpr hc3
  have hv : HOMEWORK_VERDICTS.lookup c = none := by
    simp [HOMEWORK_VERDICTS, List.lookup, e1, e2, e3]
  exact parse_status_unknown_status kvs nv c hname hstatus hv

/-- C4 (witness): a record missing both keys, and the Scenario E record with
the unknown status `weird`. -/
theorem parse_status_rejections_witness :
    parse_status (.obj []) = .error (.invalidAPIResponseError
      "Отсутствуют ключи homework_name или status в ответе API") ∧
    parse_status (.obj [("homework_name", .str "hw2"), ("status", .str "weird")])
      = .error (.unknownHomeworkStatusError
        ("Неизвестный статус домашней работы: " ++ "weird")) := by
  constructor
  · exact (parse_status_rejections [] (.int 0) "").1 (Or.inl rfl)
  · exact (parse_status_rejections
      [("homework_name", .str "hw2"), ("status", .str "weird")]
      (.str "hw2") "weird").2 rfl rfl (by decide) (by decide) (by decide)

/-- C7 (counterexample): an HTTP 201 response — a 2xx success code — does
take the `APIRequestError` failure path, refuting the claim that 2xx
responses avoid it. -/
theorem get_api_answer_fails_on_http_201 :
    get_api_answer (.int 0)
      (.ok ⟨201, some (.obj [("homeworks", .list []), ("current_date", .int 0)])⟩)
      = .error (.apiRequestError unavailableMsg) := rfl

/-- C7 (amended): a network-level failure is wrapped into `APIRequestError`
carrying the endpoint and the parameters attempted; every response whose
status code is not exactly 200 (OK) fails with `APIRequestError`, and only a
200 response avoids this failure path. -/
theorem get_api_answer_error_policy (ts : Value) (resp : HttpResponse) :
    (get_api_answer ts (.error ())
      = .error (.apiRequestError (transportErrorMsg ts))) ∧
    (resp.status_code ≠ 200 →
      get_api_answer ts (.ok resp) = .error (.apiRequestError unavailableMsg)) ∧
    (resp.status_code = 200 → ∃ r, get_api_answer ts (.ok resp) = .ok r) := by
  refine ⟨rfl, ?_, ?_⟩
  · intro h; simp [get_api_answer, h]
  · intro h
    cases hj : resp.json with
    | some v => exact ⟨.decoded v, by simp [get_api_answer, h, hj]⟩
    | none => exact ⟨.raw resp, by simp [get_api_answer, h, hj]⟩

/-- C7 (witness): the transport-failure wrap, the Scenario B HTTP 503
failure, and a 200 response avoiding the failure path. -/
theorem get_api_answer_error_policy_witness :
    get_api_answer (.int 0) (.error ())
      = .error (.apiRequestError (transportErrorMsg (.int 0))) ∧
    get_api_answer (.int 0) (.ok ⟨503, none⟩)
      = .error (.apiRequestError unavailableMsg) ∧
    ∃ r, get_api_answer (.int 0) (.ok ⟨200, some .null⟩) = .ok r :=
  ⟨(get_api_answer_error_policy (.int 0) ⟨503, none⟩).1,
   (get_api_answer_error_policy (.int 0) ⟨503, none⟩).2.1 (by decide),
   (get_api_answer_error_policy (.int 0) ⟨200, some .null⟩).2.2 rfl⟩

/-- C8: when any of the three required configuration values is empty or
absent, `check_tokens` raises `MissingTokensError` whose message lists every
missing name, `main` never enters the poll loop, and when exactly
`TELEGRAM_TOKEN` is missing the message lists exactly that name. -/
theorem check_tokens_policy (cfg : Config) (now : Int)
    (events : List (Except Unit HttpResponse × Bool)) :
    (∀ name val, (name, val) ∈ tokenTable cfg → tokenMissing val = true →
      ∃ pre post, check_tokens cfg
        = .error (.missingTokensError (pre ++ name ++ post))) ∧
    ((∃ p ∈ tokenTable cfg, tokenMissing p.2 = true) →
      ∃ e, main_model cfg now events = .error e) ∧
    (tokenMissing cfg.PRACTICUM_TOKEN = false →
      tokenMissing cfg.TELEGRAM_CHAT_ID = false →
      tokenMissing cfg.TELEGRAM_TOKEN = true →
      check_tokens cfg = .error (.missingTokensError
        "Отсутствует обязательная переменная окружения: TELEGRAM_TOKEN.")) := by
  have key : ∀ name val, (name, val) ∈ tokenTable cfg → tokenMissing val = true →
      ∃ pre post, check_tokens cfg
        = .error (.missingTokensError (pre ++ name ++ post)) := by
    intro name val hmem hmiss
    have hname : name ∈ ((tokenTable cfg).filter
        (fun p => tokenMissing p.2)).map (·.1) :=
      List.mem_map.mpr ⟨(name, val),
        List.mem_filter.mpr ⟨hmem, by simpa using hmiss⟩, rfl⟩
    obtain ⟨pre, post, hsplit⟩ :=
      intercalate_mem_split ", " name _ hname
    have hne : (((tokenTable cfg).filter
        (fun p => tokenMissing p.2)).map (·.1)).isEmpty = false := by
      cases hEq : ((tokenTable cfg).filter (fun p => tokenMissing p.2)).map (·.1) with
      | nil => rw [hEq] at hname; cases hname
      | cons a l => rfl
    refine ⟨"Отсутствует обязательная переменная окружения: " ++ pre,
      post ++ ".", ?_⟩
    simp only [check_tokens, hne, Bool.false_eq_true, if_false, hsplit,
      Except.error.injEq, PyError.missingTokensError.injEq]
    simp [String.append_assoc]
  refine ⟨key, ?_, ?_⟩
  · rintro ⟨p, hmem, hmiss⟩
    obtain ⟨pre, post, herr⟩ := key p.1 p.2 (by simpa using hmem) hmiss
    exact ⟨.missingTokensError (pre ++ p.1 ++ post), by simp [main_model, herr]⟩
  · intro h1 h2 h3
    simp [check_tokens, tokenTable, List.filter, h1, h2, h3,
      String.intercalate]
    rfl

/-- C8 (witness): a configuration missing exactly `TELEGRAM_TOKEN` fails
before the loop with a message naming exactly that variable. -/
theorem check_tokens_policy_witness :
    (∃ pre post, check_tokens ⟨some "a", none, some "b"⟩
      = .error (.missingTokensError (pre ++ "TELEGRAM_TOKEN" ++ post))) ∧
    (∃ e, main_model ⟨some "a", none, some "b"⟩ 0 [] = .error e) ∧
    check_tokens ⟨some "a", none, some "b"⟩
      = .error (.missingTokensError
        "Отсутствует обязательная переменная окружения: TELEGRAM_TOKEN.") :=
  ⟨(check_tokens_policy ⟨some "a", none, some "b"⟩ 0 []).1
      "TELEGRAM_TOKEN" none (by simp [tokenTable]) rfl,
   (check_tokens_policy ⟨some "a", none, some "b"⟩ 0 []).2.1
      ⟨("TELEGRAM_TOKEN", none), by simp [tokenTable], rfl⟩,
   (check_tokens_policy ⟨some "a", none, some "b"⟩ 0 []).2.2 rfl rfl rfl⟩

/-- C9 (implicit): whenever both keys are present and the `status` value is a
key of the Verdict Map, translation succeeds and embeds the `homework_name`
value verbatim (via Python `str`), with no check that it is a string. -/
theorem parse_status_accepts_nonstring_names (kvs : List (String × Value))
    (nv : Value) (c verdict : String) :
    dictGet? kvs "homework_name" = some nv →
    dictGet? kvs "status" = some (.str c) →
    HOMEWORK_VERDICTS.lookup c = some verdict →
    parse_status (.obj kvs) = .ok
      ("Изменился статус проверки работы \"" ++ pyStr nv ++ "\". " ++ verdict) :=
  parse_status_ok kvs nv c verdict

/-- C9 (witness): a record whose `homework_name` is the integer 5 is accepted
and the message embeds `5`. -/
theorem parse_status_accepts_nonstring_names_witness :
    parse_status (.obj [("homework_name", .int 5), ("status", .str "approved")])
      = .ok ("Изменился статус проверки работы \"" ++ pyStr (.int 5) ++ "\". "
          ++ "Работа проверена: ревьюеру всё понравилось. Ура!") :=
  parse_status_accepts_nonstring_names
    [("homework_name", .int 5), ("status", .str "approved")]
    (.int 5) "approved" "Работа проверена: ревьюеру всё понравилось. Ура!"
    rfl rfl rfl

/-- C5: on a failing iteration (fetch, validate or translate failure) the
poll cursor is unchanged; on a successful iteration it equals the payload's
`current_date` value. -/
theorem poll_cursor_advancement (t : Except Unit HttpResponse) (d : Bool)
    (st : LoopState) :
    ((∃ e, try_block t st = .error e) →
      (iterate_once t d st).state.timestamp = st.timestamp) ∧
    (∀ resp kvs p, t = .ok resp → resp.json = some (.obj kvs) →
      try_block t st = .ok p →
      ∃ cd, dictGet? kvs "current_date" = some cd ∧
        (iterate_once t d st).state.timestamp = cd) := by
  constructor
  · rintro ⟨e, he⟩
    rw [iterate_once_error t d st e he]
    by_cases hb : st.last_error_message == some (diag e) <;> simp [hb]
  · rintro resp kvs p rfl hj hok
    obtain ⟨hsc, hs, hcr, hp1⟩ := try_block_ok_inv st p resp kvs hj hok
    obtain ⟨-, hck, hdg⟩ := (check_response_ok_iff kvs hs).mp hcr
    obtain ⟨cd, hcd⟩ := lookup_exists_of_hasKey kvs "current_date" hck
    refine ⟨cd, hcd, ?_⟩
    obtain ⟨ts, m0⟩ := p
    rw [iterate_once_ok _ d st ts m0 hok]
    simp only at hp1
    rw [show (⟨⟨ts, st.last_error_message⟩, m0.toList,
        if d then m0.toList else []⟩ : IterOutput).state.timestamp = ts from rfl]
    rw [hp1, hcd]
    rfl

/-- C5 (witness): a failing iteration leaves the cursor at 0; a successful
iteration with payload `current_date = 1000` sets it to 1000. -/
theorem poll_cursor_advancement_witness :
    (iterate_once (.error ()) true ⟨.int 0, none⟩).state.timestamp = Value.int 0 ∧
    ∃ cd, dictGet? [("homeworks", Value.list []), ("current_date", Value.int 1000)]
        "current_date" = some cd ∧
      (iterate_once (.ok ⟨200, some (.obj [("homeworks", .list []),
          ("current_date", .int 1000)])⟩) true ⟨.int 0, none⟩).state.timestamp = cd :=
  ⟨(poll_cursor_advancement (.error ()) true ⟨.int 0, none⟩).1
      ⟨.apiRequestError (transportErrorMsg (.int 0)), rfl⟩,
   (poll_cursor_advancement
      (.ok ⟨200, some (.obj [("homeworks", .list []), ("current_date", .int 1000)])⟩)
      true ⟨.int 0, none⟩).2
      ⟨200, some (.obj [("homeworks", .list []), ("current_date", .int 1000)])⟩
      [("homeworks", .list []), ("current_date", .int 1000)]
      (Value.int 1000, none) rfl rfl rfl⟩

/-- C6 (counterexample): in a run of three consecutive failing iterations
with the same diagnostic text, the pair formed by the second and third
iterations are consecutive failing iterations producing the same text, yet
zero notifications are sent across that pair (not exactly one): the first
iteration had already recorded the text in Last Error Message. -/
theorem dedup_pair_counterexample :
    (∃ e, try_block (Except.error ())
            (iterate_once (.error ()) true ⟨.int 0, none⟩).state = .error e ∧
          try_block (Except.error ())
            (iterate_once (.error ()) true
              (iterate_once (.error ()) true ⟨.int 0, none⟩).state).state
            = .error e) ∧
    (iterate_once (.error ()) true
      (iterate_once (.error ()) true ⟨.int 0, none⟩).state).attempted = [] ∧
    (iterate_once (.error ()) true
      (iterate_once (.error ()) true
        (iterate_once (.error ()) true ⟨.int 0, none⟩).state).state).attempted
      = [] :=
  ⟨⟨.apiRequestError (transportErrorMsg (.int 0)), rfl, rfl⟩, rfl, rfl⟩

/-- C6 (amended): for every pair of consecutive failing iterations whose
first diagnostic text differs from the Last Error Message held before the
pair, equal texts send exactly one notification and differing texts send
two; and a successful iteration never changes the Last Error Message. -/
theorem dedup_amended (t1 t2 : Except Unit HttpResponse) (d1 d2 : Bool)
    (st : LoopState) (e1 e2 : PyError)
    (h1 : try_block t1 st = .error e1)
    (h2 : try_block t2 (iterate_once t1 d1 st).state = .error e2)
    (hfresh : st.last_error_message ≠ some (diag e1)) :
    (diag e1 = diag e2 →
      (iterate_once t1 d1 st).attempted
        ++ (iterate_once t2 d2 (iterate_once t1 d1 st).state).attempted
        = [diag e1]) ∧
    (diag e1 ≠ diag e2 →
      (iterate_once t1 d1 st).attempted
        ++ (iterate_once t2 d2 (iterate_once t1 d1 st).state).attempted
        = [diag e1, diag e2]) ∧
    (∀ t d stx p, try_block t stx = .ok p →
      (iterate_once t d stx).state.last_error_message
        = stx.last_error_message) := by
  have hb1 : (st.last_error_message == some (diag e1)) = false := by
    simpa using hfresh
  have hiter1 : iterate_once t1 d1 st
      = ⟨⟨st.timestamp, some (diag e1)⟩, [diag e1],
          if d1 then [diag e1] else []⟩ := by
    rw [iterate_once_error t1 d1 st e1 h1]; simp [hb1]
  rw [hiter1] at h2
  refine ⟨?_, ?_, ?_⟩
  · intro heq
    rw [hiter1, iterate_once_error t2 d2 _ e2 h2]
    simp [heq]
  · intro hne
    rw [hiter1, iterate_once_error t2 d2 _ e2 h2]
    have : ((some (diag e1) : Option String) == some (diag e2)) = false := by
      simpa using hne
    simp only [this, Bool.false_eq_true, if_false]
    rfl
  · intro t d stx p hok
    obtain ⟨ts, m0⟩ := p
    rw [iterate_once_ok t d stx ts m0 hok]

/-- C6 (witness): two consecutive transport-failure iterations starting from
a fresh state send exactly one notification, and a successful iteration
leaves the Last Error Message unchanged. -/
theorem dedup_amended_witness :
    (iterate_once (.error ()) true ⟨.int 0, none⟩).attempted
      ++ (iterate_once (.error ()) true
            (iterate_once (.error ()) true ⟨.int 0, none⟩).state).attempted
      = [diag (.apiRequestError (transportErrorMsg (.int 0)))] ∧
    (iterate_once (.ok ⟨200, some (.obj [("homeworks", .list []),
        ("current_date", .int 1000)])⟩) true
      ⟨.int 0, none⟩).state.last_error_message = none :=
  ⟨(dedup_amended (.error ()) (.error ()) true true ⟨.int 0, none⟩
      (.apiRequestError (transportErrorMsg (.int 0)))
      (.apiRequestError (transportErrorMsg (.int 0)))
      rfl rfl (by simp)).1 rfl,
   (dedup_amended (.error ()) (.error ()) true true ⟨.int 0, none⟩
      (.apiRequestError (transportErrorMsg (.int 0)))
      (.apiRequestError (transportErrorMsg (.int 0)))
      rfl rfl (by simp)).2.2
      (.ok ⟨200, some (.obj [("homeworks", .list []),
        ("current_date", .int 1000)])⟩) true ⟨.int 0, none⟩
      (Value.int 1000, none) rfl⟩

/-- C10 (implicit): on a failing iteration whose diagnostic text differs from
the Last Error Message, the state update does not depend on whether the
notification was delivered (`send_message` swallows delivery failures): the
Last Error Message becomes the new text even when delivery failed, and a
subsequent identical failure is then suppressed. -/
theorem last_error_updates_regardless_of_delivery
    (t : Except Unit HttpResponse) (st : LoopState) (e : PyError)
    (h : try_block t st = .error e)
    (hdiff : st.last_error_message ≠ some (diag e)) :
    (∀ d1 d2 : Bool,
      (iterate_once t d1 st).state = (iterate_once t d2 st).state) ∧
    (∀ d : Bool,
      (iterate_once t d st).state.last_error_message = some (diag e) ∧
      (iterate_once t d st).attempted = [diag e]) ∧
    (iterate_once t false st).delivered = [] ∧
    (∀ d : Bool, ∀ e2, try_block t (iterate_once t false st).state = .error e2 →
      diag e2 = diag e →
      (iterate_once t d (iterate_once t false st).state).attempted = []) := by
  have hb : (st.last_error_message == some (diag e)) = false := by
    simpa using hdiff
  have hiter : ∀ d : Bool, iterate_once t d st
      = ⟨⟨st.timestamp, some (diag e)⟩, [diag e],
          if d then [diag e] else []⟩ := by
    intro d; rw [iterate_once_error t d st e h]; simp [hb]
  refine ⟨?_, ?_, ?_, ?_⟩
  · intro d1 d2; rw [hiter d1, hiter d2]
  · intro d; rw [hiter d]; exact ⟨rfl, rfl⟩
  · rw [hiter false]; rfl
  · intro d e2 h2 hde
    have hst : (iterate_once t false st).state
        = ⟨st.timestamp, some (diag e)⟩ := by rw [hiter false]
    rw [hst] at h2 ⊢
    rw [iterate_once_error t d _ e2 h2]
    simp [hde]

/-- C10 (witness): a transport-failure iteration with failed delivery still
records the diagnostic, delivers nothing, yields the same state as with
successful delivery, and suppresses the next identical failure. -/
theorem last_error_updates_regardless_of_delivery_witness :
    (iterate_once (.error ()) true ⟨.int 0, none⟩).state
      = (iterate_once (.error ()) false ⟨.int 0, none⟩).state ∧
    (iterate_once (.error ()) false ⟨.int 0, none⟩).state.last_error_message
      = some (diag (.apiRequestError (transportErrorMsg (.int 0)))) ∧
    (iterate_once (.error ()) false ⟨.int 0, none⟩).delivered = [] ∧
    (iterate_once (.error ()) true
      (iterate_once (.error ()) false ⟨.int 0, none⟩).state).attempted = [] := by
  have base := last_error_updates_regardless_of_delivery
    (.error ()) ⟨.int 0, none⟩
    (.apiRequestError (transportErrorMsg (.int 0))) rfl (by simp)
  exact ⟨base.1 true false, (base.2.1 false).1, base.2.2.1,
    base.2.2.2 true (.apiRequestError (transportErrorMsg (.int 0))) rfl rfl⟩

end HomeworkBot
